import Mathlib

/-!
Shallow embedding of the ImGuizmo widget library (src/ImGuizmo.cpp and
src/ImGuizmo.h).  Machine floats are modelled as exact ordered-field
scalars: the snap utilities are generic in a linear ordered field with a
floor, instantiated at the rationals where statements are evaluated, and
the geometry plus the manipulation state machine live over the reals,
where square roots and trigonometric functions exist.  Division by zero
follows the Lean convention x / 0 = 0 where the C++ code would produce a
non-finite float.
-/

namespace ImGuizmo

noncomputable section

/-- Constant kEpsilon of the source: glm::epsilon for 32-bit floats,
which is 2 to the power of -23. -/
def kEpsilon {K : Type} [LinearOrderedField K] : K := 1 / 8388608

/-- Truncation toward zero, as performed by the C library fmod. -/
def truncI {K : Type} [LinearOrderedField K] [FloorRing K] (x : K) : ℤ :=
  if 0 ≤ x then ⌊x⌋ else ⌈x⌉

/-- C library fmod on exact scalars: x - y * trunc (x / y). -/
def fmodK {K : Type} [LinearOrderedField K] [FloorRing K] (x y : K) : K :=
  x - y * (truncI (x / y) : K)

/-- CalculateSnap from the source (scalar overload): values whose modulo
lies in the lower half of a snap cell drop to the cell start, values in
the upper half are pushed to the next multiple away from zero, and snap
steps not larger than kEpsilon leave the value untouched.  The source
constant snap_tension is one half. -/
def CalculateSnap {K : Type} [LinearOrderedField K] [FloorRing K]
    (value snap : K) : K :=
  if snap ≤ kEpsilon then value
  else
    let modulo := fmodK value snap
    let moduloFrac := |modulo| / snap
    if moduloFrac < 1 / 2 then value - modulo
    else if moduloFrac > 1 - 1 / 2 then
      value - modulo + snap * (if value < 0 then -1 else 1)
    else value

/-- Mode enumeration value ImGuizmoMode_World from the header. -/
def ImGuizmoMode_World : ℕ := 0

/-- Mode enumeration value ImGuizmoMode_Local from the header. -/
def ImGuizmoMode_Local : ℕ := 1

/-- Operation enumeration value ImGuizmoOperation_None. -/
def ImGuizmoOperation_None : ℕ := 0

/-- Operation enumeration value ImGuizmoOperation_Translate. -/
def ImGuizmoOperation_Translate : ℕ := 1

/-- Operation enumeration value ImGuizmoOperation_Rotate. -/
def ImGuizmoOperation_Rotate : ℕ := 2

/-- Operation enumeration value ImGuizmoOperation_Scale. -/
def ImGuizmoOperation_Scale : ℕ := 3

/-- Axis flag for the X axis (1 shifted left by 0). -/
def ImGuizmoAxisFlags_X : ℕ := 1

/-- Axis flag for the Y axis (1 shifted left by 1). -/
def ImGuizmoAxisFlags_Y : ℕ := 2

/-- Axis flag for the Z axis (1 shifted left by 2). -/
def ImGuizmoAxisFlags_Z : ℕ := 4

/-- Axis flag for all three axes. -/
def ImGuizmoAxisFlags_ALL : ℕ := 7

/-- Config flag ImGuizmoConfigFlags_HasReversing (1 shifted left by 2):
cancel the active manipulation on a right mouse click. -/
def ImGuizmoConfigFlags_HasReversing : ℕ := 4

/-- HasSingleAxis from the source: the flags select exactly one axis. -/
def HasSingleAxis (flags : ℕ) : Bool :=
  flags == 1 || flags == 2 || flags == 4

/-- GetAxisIdx from the source.  The default branch asserts in the source
and returns -1; it is unreachable behind the HasSingleAxis guard. -/
def GetAxisIdx (flags : ℕ) (around : Bool) : ℕ :=
  match flags with
  | 1 => if around then 2 else 0
  | 2 => 1
  | 4 => if around then 0 else 2
  | _ => 0

/-- AxisToFlag from the source.  The default branch asserts in the source
and is unreachable for axis indices 0, 1 and 2. -/
def AxisToFlag (axisIdx : ℕ) (around : Bool) : ℕ :=
  match axisIdx with
  | 0 => if around then 4 else 1
  | 1 => 2
  | 2 => if around then 1 else 4
  | _ => 0

/-- HasPlane from the source: the flags select exactly two axes. -/
def HasPlane (flags : ℕ) : Bool :=
  if flags == 7 then false
  else flags == 6 || flags == 5 || flags == 3

/-- GetPlaneIdx from the source.  The default branch asserts in the
source and is unreachable behind the HasPlane guard. -/
def GetPlaneIdx (flags : ℕ) : ℕ :=
  match flags with
  | 6 => 0
  | 5 => 1
  | 3 => 2
  | _ => 0

/-- PlaneToFlags from the source.  The default branch asserts in the
source and is unreachable for plane indices 0, 1 and 2. -/
def PlaneToFlags (planeIdx : ℕ) : ℕ :=
  match planeIdx with
  | 0 => 6
  | 1 => 5
  | 2 => 3
  | _ => 0

/-- Screen-space 2-component vector, glm::vec2 and ImVec2 of the source. -/
@[ext]
structure Vec2 where
  x : ℝ
  y : ℝ

/-- World-space 3-component vector, glm::vec3 of the source. -/
@[ext]
structure Vec3 where
  x : ℝ
  y : ℝ
  z : ℝ

/-- Homogeneous 4-component vector, glm::vec4 of the source. -/
@[ext]
structure Vec4 where
  x : ℝ
  y : ℝ
  z : ℝ
  w : ℝ

instance : Add Vec2 := ⟨fun a b => ⟨a.x + b.x, a.y + b.y⟩⟩

instance : Sub Vec2 := ⟨fun a b => ⟨a.x - b.x, a.y - b.y⟩⟩

instance : SMul ℝ Vec2 := ⟨fun r v => ⟨r * v.x, r * v.y⟩⟩

instance : Add Vec3 := ⟨fun a b => ⟨a.x + b.x, a.y + b.y, a.z + b.z⟩⟩

instance : Sub Vec3 := ⟨fun a b => ⟨a.x - b.x, a.y - b.y, a.z - b.z⟩⟩

instance : Neg Vec3 := ⟨fun v => ⟨-v.x, -v.y, -v.z⟩⟩

instance : SMul ℝ Vec3 := ⟨fun r v => ⟨r * v.x, r * v.y, r * v.z⟩⟩

instance : Add Vec4 := ⟨fun a b => ⟨a.x + b.x, a.y + b.y, a.z + b.z, a.w + b.w⟩⟩

instance : Sub Vec4 := ⟨fun a b => ⟨a.x - b.x, a.y - b.y, a.z - b.z, a.w - b.w⟩⟩

instance : Mul Vec4 := ⟨fun a b => ⟨a.x * b.x, a.y * b.y, a.z * b.z, a.w * b.w⟩⟩

instance : SMul ℝ Vec4 := ⟨fun r v => ⟨r * v.x, r * v.y, r * v.z, r * v.w⟩⟩

instance : DecidableEq Vec2 := Classical.decEq _

instance : DecidableEq Vec3 := Classical.decEq _

instance : DecidableEq Vec4 := Classical.decEq _

/-- Truncation of a homogeneous vector to its spatial part, the implicit
glm::vec3 constructor from a glm::vec4. -/
def Vec4.xyz (v : Vec4) : Vec3 := ⟨v.x, v.y, v.z⟩

/-- Dot product of screen-space vectors. -/
def dot2 (a b : Vec2) : ℝ := a.x * b.x + a.y * b.y

/-- Dot product of world-space vectors, glm::dot. -/
def dot3 (a b : Vec3) : ℝ := a.x * b.x + a.y * b.y + a.z * b.z

/-- Cross product, glm::cross. -/
def cross3 (a b : Vec3) : Vec3 :=
  ⟨a.y * b.z - a.z * b.y, a.z * b.x - a.x * b.z, a.x * b.y - a.y * b.x⟩

/-- Euclidean length of a screen-space vector, glm::length. -/
def norm2 (v : Vec2) : ℝ := Real.sqrt (dot2 v v)

/-- Euclidean length of a world-space vector, glm::length. -/
def norm3 (v : Vec3) : ℝ := Real.sqrt (dot3 v v)

/-- Euclidean length of a homogeneous vector, glm::length on vec4. -/
def norm4 (v : Vec4) : ℝ :=
  Real.sqrt (v.x * v.x + v.y * v.y + v.z * v.z + v.w * v.w)

/-- Normalization by the reciprocal length, glm::normalize on vec2. -/
def normalize2 (v : Vec2) : Vec2 := (1 / norm2 v) • v

/-- Normalization by the reciprocal length, glm::normalize on vec3. -/
def normalize3 (v : Vec3) : Vec3 := (1 / norm3 v) • v

/-- Normalization by the reciprocal length, glm::normalize on vec4. -/
def normalize4 (v : Vec4) : Vec4 := (1 / norm4 v) • v

/-- Column-major 4 by 4 matrix, glm::mat4 of the source; cI is column I. -/
@[ext]
structure Mat4 where
  c0 : Vec4
  c1 : Vec4
  c2 : Vec4
  c3 : Vec4

instance : DecidableEq Mat4 := Classical.decEq _

/-- Matrix times homogeneous vector for a column-major matrix. -/
def Mat4.mulV (m : Mat4) (v : Vec4) : Vec4 :=
  ⟨m.c0.x * v.x + m.c1.x * v.y + m.c2.x * v.z + m.c3.x * v.w,
   m.c0.y * v.x + m.c1.y * v.y + m.c2.y * v.z + m.c3.y * v.w,
   m.c0.z * v.x + m.c1.z * v.y + m.c2.z * v.z + m.c3.z * v.w,
   m.c0.w * v.x + m.c1.w * v.y + m.c2.w * v.z + m.c3.w * v.w⟩

/-- Matrix product; each column of the product is the left matrix applied
to the corresponding column of the right matrix. -/
def Mat4.mul (a b : Mat4) : Mat4 :=
  ⟨a.mulV b.c0, a.mulV b.c1, a.mulV b.c2, a.mulV b.c3⟩

/-- Column access by index, the subscript operator of glm::mat4.  Every
call site of the embedding passes an index below 4. -/
def Mat4.col (m : Mat4) (i : ℕ) : Vec4 :=
  match i with
  | 0 => m.c0
  | 1 => m.c1
  | 2 => m.c2
  | _ => m.c3

/-- Identity matrix, glm::mat4 of 1.0f. -/
def idMat : Mat4 :=
  ⟨⟨1, 0, 0, 0⟩, ⟨0, 1, 0, 0⟩, ⟨0, 0, 1, 0⟩, ⟨0, 0, 0, 1⟩⟩

/-- Translation matrix, glm::translate. -/
def translateM (v : Vec3) : Mat4 :=
  ⟨⟨1, 0, 0, 0⟩, ⟨0, 1, 0, 0⟩, ⟨0, 0, 1, 0⟩, ⟨v.x, v.y, v.z, 1⟩⟩

/-- Scale matrix, glm::scale. -/
def scaleM (v : Vec3) : Mat4 :=
  ⟨⟨v.x, 0, 0, 0⟩, ⟨0, v.y, 0, 0⟩, ⟨0, 0, v.z, 0⟩, ⟨0, 0, 0, 1⟩⟩

/-- Rotation matrix about an axis, glm::rotate applied to the identity:
the axis is normalized inside and the columns follow the glm formula with
temp equal to (1 - cos) times the axis. -/
def rotateM (angle : ℝ) (v : Vec3) : Mat4 :=
  let c := Real.cos angle
  let s := Real.sin angle
  let a := normalize3 v
  let t : Vec3 := (1 - c) • a
  ⟨⟨c + t.x * a.x, t.x * a.y + s * a.z, t.x * a.z - s * a.y, 0⟩,
   ⟨t.y * a.x - s * a.z, c + t.y * a.y, t.y * a.z + s * a.x, 0⟩,
   ⟨t.z * a.x + s * a.y, t.z * a.y - s * a.x, c + t.z * a.z, 0⟩,
   ⟨0, 0, 0, 1⟩⟩

/-- Degrees to radians, glm::radians. -/
def radians (deg : ℝ) : ℝ := deg * (Real.pi / 180)

/-- Componentwise vector product on vec3, the glm operator. -/
def hadamard3 (a b : Vec3) : Vec3 := ⟨a.x * b.x, a.y * b.y, a.z * b.z⟩

/-- General 4 by 4 inverse, transliterated from the glm compute_inverse
cofactor algorithm (the matrix m is indexed column first). -/
def inverse4 (m : Mat4) : Mat4 :=
  let coef00 := m.c2.z * m.c3.w - m.c3.z * m.c2.w
  let coef02 := m.c1.z * m.c3.w - m.c3.z * m.c1.w
  let coef03 := m.c1.z * m.c2.w - m.c2.z * m.c1.w
  let coef04 := m.c2.y * m.c3.w - m.c3.y * m.c2.w
  let coef06 := m.c1.y * m.c3.w - m.c3.y * m.c1.w
  let coef07 := m.c1.y * m.c2.w - m.c2.y * m.c1.w
  let coef08 := m.c2.y * m.c3.z - m.c3.y * m.c2.z
  let coef10 := m.c1.y * m.c3.z - m.c3.y * m.c1.z
  let coef11 := m.c1.y * m.c2.z - m.c2.y * m.c1.z
  let coef12 := m.c2.x * m.c3.w - m.c3.x * m.c2.w
  let coef14 := m.c1.x * m.c3.w - m.c3.x * m.c1.w
  let coef15 := m.c1.x * m.c2.w - m.c2.x * m.c1.w
  let coef16 := m.c2.x * m.c3.z - m.c3.x * m.c2.z
  let coef18 := m.c1.x * m.c3.z - m.c3.x * m.c1.z
  let coef19 := m.c1.x * m.c2.z - m.c2.x * m.c1.z
  let coef20 := m.c2.x * m.c3.y - m.c3.x * m.c2.y
  let coef22 := m.c1.x * m.c3.y - m.c3.x * m.c1.y
  let coef23 := m.c1.x * m.c2.y - m.c2.x * m.c1.y
  let fac0 : Vec4 := ⟨coef00, coef00, coef02, coef03⟩
  let fac1 : Vec4 := ⟨coef04, coef04, coef06, coef07⟩
  let fac2 : Vec4 := ⟨coef08, coef08, coef10, coef11⟩
  let fac3 : Vec4 := ⟨coef12, coef12, coef14, coef15⟩
  let fac4 : Vec4 := ⟨coef16, coef16, coef18, coef19⟩
  let fac5 : Vec4 := ⟨coef20, coef20, coef22, coef23⟩
  let vec0 : Vec4 := ⟨m.c1.x, m.c0.x, m.c0.x, m.c0.x⟩
  let vec1 : Vec4 := ⟨m.c1.y, m.c0.y, m.c0.y, m.c0.y⟩
  let vec2 : Vec4 := ⟨m.c1.z, m.c0.z, m.c0.z, m.c0.z⟩
  let vec3 : Vec4 := ⟨m.c1.w, m.c0.w, m.c0.w, m.c0.w⟩
  let inv0 := vec1 * fac0 - vec2 * fac1 + vec3 * fac2
  let inv1 := vec0 * fac0 - vec2 * fac3 + vec3 * fac4
  let inv2 := vec0 * fac1 - vec1 * fac3 + vec3 * fac5
  let inv3 := vec0 * fac2 - vec1 * fac4 + vec2 * fac5
  let signA : Vec4 := ⟨1, -1, 1, -1⟩
  let signB : Vec4 := ⟨-1, 1, -1, 1⟩
  let inv : Mat4 := ⟨inv0 * signA, inv1 * signB, inv2 * signA, inv3 * signB⟩
  let row0 : Vec4 := ⟨inv.c0.x, inv.c1.x, inv.c2.x, inv.c3.x⟩
  let dot0 := m.c0 * row0
  let det := dot0.x + dot0.y + dot0.z + dot0.w
  ⟨(1 / det) • inv.c0, (1 / det) • inv.c1, (1 / det) • inv.c2,
   (1 / det) • inv.c3⟩

/-- Unit direction vector, the kUnitDirections table of the source. -/
def unitDir (axisIdx : ℕ) : Vec3 :=
  match axisIdx with
  | 0 => ⟨1, 0, 0⟩
  | 1 => ⟨0, 1, 0⟩
  | _ => ⟨0, 0, 1⟩

/-- Unit direction vector extended by a zero w component, the vec4 form
in which the source feeds kUnitDirections to matrices. -/
def unitDir4 (axisIdx : ℕ) : Vec4 :=
  match axisIdx with
  | 0 => ⟨1, 0, 0, 0⟩
  | 1 => ⟨0, 1, 0, 0⟩
  | _ => ⟨0, 0, 1, 0⟩

/-- Mouse picking ray of the source (ImGuizmoRay struct). -/
structure ImGuizmoRay where
  Origin : Vec3 := ⟨0, 0, 0⟩
  End : Vec3 := ⟨0, 0, 0⟩
  Direction : Vec3 := ⟨0, 0, 0⟩

/-- Screen rectangle, ImRect of the host with Min the top left corner. -/
structure Rect where
  Min : Vec2 := ⟨0, 0⟩
  Max : Vec2 := ⟨0, 0⟩

/-- Aspect ratio of a rectangle, ImGuizmoContext GetAspectRatio. -/
def aspectOf (r : Rect) : ℝ := (r.Max.x - r.Min.x) / (r.Max.y - r.Min.y)

/-- BuildPlane from the source: plane through a point with the given
(normalized) normal, packed as (normal, distance). -/
def BuildPlane (point normal : Vec3) : Vec4 :=
  let n := normalize3 normal
  ⟨n.x, n.y, n.z, dot3 n point⟩

/-- DistanceToPlane from the source. -/
def DistanceToPlane (point : Vec3) (plane : Vec4) : ℝ :=
  dot3 plane.xyz point + plane.w

/-- IntersectRayPlane from the source: -1 when the ray direction is
within kEpsilon of being parallel to the plane, otherwise the ray
parameter of the intersection point. -/
def IntersectRayPlane (ray : ImGuizmoRay) (plane : Vec4) : ℝ :=
  let num := dot3 plane.xyz ray.Origin - plane.w
  let denom := dot3 plane.xyz ray.Direction
  if |denom| < kEpsilon then -1
  else -(num / denom)

/-- PointOnSegment from the source: the point of the segment from v1 to
v2 closest to the given screen point. -/
def PointOnSegment (point v1 v2 : Vec2) : Vec2 :=
  let c := point - v1
  let vdir := normalize2 (v2 - v1)
  let t := dot2 vdir c
  if t < 0 then v1
  else
    let d := norm2 (v2 - v1)
    if t > d then v2 else v1 + t • vdir

/-- WorldToScreen from the source: project a world position through a
matrix to a pixel position inside the given rectangle. -/
def WorldToScreen (worldPos : Vec3) (m : Mat4) (bb : Rect) : Vec2 :=
  let temp := m.mulV ⟨worldPos.x, worldPos.y, worldPos.z, 1⟩
  let temp1 := ((1 / 2) / temp.w) • temp
  let sx := (temp1.x + 1 / 2) * (bb.Max.x - bb.Min.x) + bb.Min.x
  let sy := (1 - (temp1.y + 1 / 2)) * (bb.Max.y - bb.Min.y) + bb.Min.y
  ⟨sx, sy⟩

/-- RayCast from the source: unproject the mouse position through the
inverse view-projection matrix into a world-space picking ray. -/
def RayCast (viewProjMatrix : Mat4) (bb : Rect) (mousePos : Vec2) : ImGuizmoRay :=
  let mx := (mousePos.x - bb.Min.x) / (bb.Max.x - bb.Min.x) * 2 - 1
  let my := ((mousePos.y - bb.Min.y) / (bb.Max.y - bb.Min.y) * 2 - 1) * (-1)
  let inv := inverse4 viewProjMatrix
  let o0 := inv.mulV ⟨mx, my, 0, 1⟩
  let o := (1 / o0.w) • o0
  let e0 := inv.mulV ⟨mx, my, 1 - kEpsilon, 1⟩
  let e := (1 / e0.w) • e0
  ⟨o.xyz, e.xyz, (normalize4 (e - o)).xyz⟩

/-- GetSegmentLengthClipSpace from the source: length in clip space of a
model-space segment, corrected by the viewport aspect ratio. -/
def GetSegmentLengthClipSpace (aspect : ℝ) (mvp : Mat4)
    (startP endP : Vec3) : ℝ :=
  let s0 := mvp.mulV ⟨startP.x, startP.y, startP.z, 1⟩
  let s1 := if kEpsilon < |s0.w| then (1 / s0.w) • s0 else s0
  let e0 := mvp.mulV ⟨endP.x, endP.y, endP.z, 1⟩
  let e1 := if kEpsilon < |e0.w| then (1 / e0.w) • e0 else e0
  norm2 ⟨e1.x - s1.x, (e1.y - s1.y) / aspect⟩

/-- Vector overload of CalculateSnap from the source: snap each component
with the matching snap step. -/
def CalculateSnapVec (value : Vec3) (snap : Vec3) : Vec3 :=
  ⟨CalculateSnap value.x snap.x, CalculateSnap value.y snap.y,
   CalculateSnap value.z snap.z⟩

/-- Camera state of the source (ImGuizmoCamera).  The stand-alone view
and projection matrices are only read back by rendering paths outside
this embedding and are omitted. -/
structure ImGuizmoCamera where
  IsOrtho : Bool := false
  ViewProjectionMatrix : Mat4 := idMat
  Right : Vec3 := ⟨1, 0, 0⟩
  Up : Vec3 := ⟨0, 1, 0⟩
  Forward : Vec3 := ⟨0, 0, 1⟩
  Eye : Vec3 := ⟨0, 0, 0⟩

/-- Widget state of the source (ImGuizmoWidget) with the member
initializers of the C++ struct as defaults. -/
structure ImGuizmoWidget where
  SourceModelMatrix : Mat4 := idMat
  ModelMatrix : Mat4 := idMat
  InversedModelMatrix : Mat4 := idMat
  ModelViewProjMatrix : Mat4 := idMat
  Mode : ℕ := ImGuizmoMode_Local
  ActiveOperation : ℕ := ImGuizmoOperation_None
  ActiveManipulationFlags : ℕ := 0
  LockedAxesFlags : ℕ := 0
  Dirty : Bool := false
  Origin : Vec2 := ⟨0, 0⟩
  RingRadius : ℝ := 0
  ScreenFactor : ℝ := 0
  TranslationPlane : Vec4 := ⟨0, 0, 0, 0⟩
  TranslationPlaneOrigin : Vec3 := ⟨0, 0, 0⟩
  ModelRelativeOrigin : Vec3 := ⟨0, 0, 0⟩
  DragTranslationOrigin : Vec3 := ⟨0, 0, 0⟩
  LastTranslationDelta : Vec3 := ⟨0, 0, 0⟩
  ModelScaleOrigin : Vec3 := ⟨1, 1, 1⟩
  RotationVectorSource : Vec3 := ⟨0, 0, 0⟩
  RotationAngle : ℝ := 0
  RotationAngleOrigin : ℝ := 0
  Scale : Vec3 := ⟨1, 1, 1⟩
  LastScale : Vec3 := ⟨1, 1, 1⟩
  ScaleValueOrigin : Vec3 := ⟨1, 1, 1⟩

/-- Per-frame host inputs consumed by the source through ImGui::GetIO,
ImGui::IsWindowHovered and the window content region. -/
structure Inputs where
  MousePos : Vec2 := ⟨0, 0⟩
  MouseDown0 : Bool := false
  MouseClicked0 : Bool := false
  MouseClicked1 : Bool := false
  WindowHovered : Bool := true
  WindowViewport : Rect := ⟨⟨0, 0⟩, ⟨1, 1⟩⟩

/-- Global state of the source (ImGuizmoContext and the style fields it
reads).  The widget registry is modelled with a single widget: every
claim manipulates one caller matrix, so FindGizmoById always yields the
same widget and the ActiveGizmo pointer is either null or that widget,
modelled as a Bool.  The caller matrix pointed to by LockedModelMatrix
is modelled by the CallerMatrix field that End writes back.  Draw lists
and the plane-visibility cache only feed rendering and the bounds-scale
operation and are omitted. -/
structure ImGuizmoContext where
  GizmoScale : ℝ := 1 / 10
  RotationRingThickness : ℝ := 7 / 2
  ConfigFlags : ℕ := 0
  Viewport : Rect := ⟨⟨0, 0⟩, ⟨1, 1⟩⟩
  Camera : ImGuizmoCamera := {}
  Ray : ImGuizmoRay := {}
  DragOrigin : Vec2 := ⟨0, 0⟩
  Gizmo : ImGuizmoWidget := {}
  ActiveGizmo : Bool := false
  BoundsActivePlane : ℤ := -1
  BoundsActiveBoundIdx : ℤ := -1
  HasLockedModelMatrix : Bool := false
  CallerMatrix : Mat4 := idMat
  BackupModelMatrix : Mat4 := idMat

/-- Component update on a vec3 by axis index, the subscript assignment of
the source.  Every call site passes an index below 3. -/
def setComp3 (v : Vec3) (i : ℕ) (value : ℝ) : Vec3 :=
  match i with
  | 0 => ⟨value, v.y, v.z⟩
  | 1 => ⟨v.x, value, v.z⟩
  | _ => ⟨v.x, v.y, value⟩

/-- ImGuizmoWidget Load from the source: refresh the reference matrix,
the working model matrix (normalized columns in Local mode, pure
translation in World mode), the derived matrices and the screen-space
values of the widget from the caller matrix. -/
def loadWidget (ctx : ImGuizmoContext) (w : ImGuizmoWidget)
    (model : Mat4) : ImGuizmoWidget :=
  let source := model
  let modelM :=
    if w.Mode == ImGuizmoMode_Local then
      ⟨normalize4 source.c0, normalize4 source.c1, normalize4 source.c2,
       source.c3⟩
    else translateM source.c3.xyz
  let mvp := ctx.Camera.ViewProjectionMatrix.mul modelM
  let scaleOrigin : Vec3 := ⟨norm4 source.c0, norm4 source.c1, norm4 source.c2⟩
  let inv := inverse4 modelM
  let rightViewInverse :=
    (inv.mulV ⟨ctx.Camera.Right.x, ctx.Camera.Right.y, ctx.Camera.Right.z, 0⟩).xyz
  let rightLength :=
    GetSegmentLengthClipSpace (aspectOf ctx.Viewport) mvp ⟨0, 0, 0⟩
      rightViewInverse
  { w with
    SourceModelMatrix := source
    ModelMatrix := modelM
    ModelViewProjMatrix := mvp
    ModelScaleOrigin := scaleOrigin
    InversedModelMatrix := inv
    ScreenFactor := ctx.GizmoScale / rightLength
    Origin := WorldToScreen ⟨0, 0, 0⟩ mvp ctx.Viewport
    RingRadius := ctx.GizmoScale * (ctx.Viewport.Max.x - ctx.Viewport.Min.x) * (55 / 100) }

/-- ImGuizmoWidget CalculateAngleOnPlane from the source: signed angle on
the stored translation plane between the stored rotation source vector
and the current mouse ray hit. -/
def calculateAngleOnPlane (ray : ImGuizmoRay) (w : ImGuizmoWidget) : ℝ :=
  let t := IntersectRayPlane ray w.TranslationPlane
  let localPos :=
    normalize3 (ray.Origin + t • ray.Direction - w.ModelMatrix.c3.xyz)
  let perp := normalize3 (cross3 w.RotationVectorSource w.TranslationPlane.xyz)
  let acosAngle :=
    min (max (dot3 localPos w.RotationVectorSource) (-1)) 1
  let angle := Real.arccos acosAngle
  angle * (if dot3 localPos perp < 0 then 1 else -1)

/-- BuildTranslatePlane from the source: the plane a translation drag
slides on, chosen from the active manipulation flags. -/
def BuildTranslatePlane (ctx : ImGuizmoContext) : Vec4 :=
  let g := ctx.Gizmo
  let hoverFlags := g.ActiveManipulationFlags
  let movePlaneNormal :=
    if HasPlane hoverFlags then
      (g.ModelMatrix.col (GetPlaneIdx hoverFlags)).xyz
    else if HasSingleAxis hoverFlags then
      let dir := (g.ModelMatrix.col (GetAxisIdx hoverFlags false)).xyz
      let cameraToModelNormalized :=
        normalize3 (g.ModelMatrix.c3.xyz - ctx.Camera.Eye)
      let orthoDir := cross3 dir cameraToModelNormalized
      normalize3 (cross3 dir orthoDir)
    else -ctx.Camera.Forward
  BuildPlane g.ModelMatrix.c3.xyz movePlaneNormal

/-- BeginTranslation from the source: back up the reference matrix,
remember the drag origin and derive the translation plane state. -/
def BeginTranslation (inp : Inputs) (ctx : ImGuizmoContext) : ImGuizmoContext :=
  let g := ctx.Gizmo
  let plane := BuildTranslatePlane ctx
  let t := IntersectRayPlane ctx.Ray plane
  let planeOrigin := ctx.Ray.Origin + t • ctx.Ray.Direction
  { ctx with
    BackupModelMatrix := g.SourceModelMatrix
    DragOrigin := inp.MousePos
    Gizmo := { g with
      DragTranslationOrigin := g.ModelMatrix.c3.xyz
      TranslationPlane := plane
      TranslationPlaneOrigin := planeOrigin
      ModelRelativeOrigin :=
        (1 / g.ScreenFactor) • (planeOrigin - g.ModelMatrix.c3.xyz) } }

/-- Locked-axis override of ContinueTranslation: each locked component of
the translation column is forced back to its drag-origin value. -/
def lockTranslation (locked : ℕ) (origin : Vec3) (m : Mat4) : Mat4 :=
  ⟨m.c0, m.c1, m.c2,
   ⟨if locked &&& 1 ≠ 0 then origin.x else m.c3.x,
    if locked &&& 2 ≠ 0 then origin.y else m.c3.y,
    if locked &&& 4 ≠ 0 then origin.z else m.c3.z,
    m.c3.w⟩⟩

/-- ContinueTranslation from the source: move the model along the stored
plane or axis, optionally snapping the cumulative delta, rebuild the
model matrix when the delta changed and restore locked components. -/
def continueTranslation (ray : ImGuizmoRay) (snap : Option Vec3)
    (w : ImGuizmoWidget) : ImGuizmoWidget :=
  let t := |IntersectRayPlane ray w.TranslationPlane|
  let targetPosition := ray.Origin + t • ray.Direction
  let newPosition := targetPosition - w.ScreenFactor • w.ModelRelativeOrigin
  let delta0 := newPosition - w.ModelMatrix.c3.xyz
  let delta1 :=
    if HasSingleAxis w.ActiveManipulationFlags then
      let axisIdx := GetAxisIdx w.ActiveManipulationFlags false
      let axisValue := (w.ModelMatrix.col axisIdx).xyz
      (dot3 axisValue delta0) • axisValue
    else delta0
  let delta :=
    match snap with
    | none => delta1
    | some sn =>
      let cumulative0 := w.ModelMatrix.c3.xyz + delta1 - w.DragTranslationOrigin
      let applyLocaly :=
        w.Mode == ImGuizmoMode_Local || w.ActiveManipulationFlags == 7
      let cumulative :=
        if applyLocaly then
          let srcNorm : Mat4 :=
            ⟨normalize4 w.SourceModelMatrix.c0, normalize4 w.SourceModelMatrix.c1,
             normalize4 w.SourceModelMatrix.c2, w.SourceModelMatrix.c3⟩
          let local0 :=
            ((inverse4 srcNorm).mulV
              ⟨cumulative0.x, cumulative0.y, cumulative0.z, 0⟩).xyz
          let local1 := CalculateSnapVec local0 sn
          (srcNorm.mulV ⟨local1.x, local1.y, local1.z, 0⟩).xyz
        else CalculateSnapVec cumulative0 sn
      w.DragTranslationOrigin + cumulative - w.ModelMatrix.c3.xyz
  if delta = w.LastTranslationDelta then { w with LastTranslationDelta := delta }
  else
    { w with
      ModelMatrix :=
        lockTranslation w.LockedAxesFlags w.DragTranslationOrigin
          ((translateM delta).mul w.SourceModelMatrix)
      Dirty := true
      LastTranslationDelta := delta }

/-- BuildRotationPlane from the source: the pick plane of a rotation
drag, a model axis plane or the camera-facing plane. -/
def BuildRotationPlane (ctx : ImGuizmoContext) : Vec4 :=
  let g := ctx.Gizmo
  let hoverFlags := g.ActiveManipulationFlags
  if HasSingleAxis hoverFlags then
    let point :=
      if g.Mode == ImGuizmoMode_Local then g.ModelMatrix.c3.xyz
      else g.SourceModelMatrix.c3.xyz
    BuildPlane point (g.ModelMatrix.col (GetAxisIdx hoverFlags false)).xyz
  else BuildPlane g.SourceModelMatrix.c3.xyz (-ctx.Camera.Forward)

/-- BeginRotation from the source: back up the reference matrix and
derive the rotation plane, source vector and starting angle. -/
def BeginRotation (inp : Inputs) (ctx : ImGuizmoContext) : ImGuizmoContext :=
  let g := ctx.Gizmo
  let plane := BuildRotationPlane ctx
  let t := IntersectRayPlane ctx.Ray plane
  let rotationSource :=
    normalize3 (ctx.Ray.Origin + t • ctx.Ray.Direction - g.ModelMatrix.c3.xyz)
  let g1 := { g with
    TranslationPlane := plane
    RotationVectorSource := rotationSource }
  let g2 := { g1 with
    RotationAngleOrigin := calculateAngleOnPlane ctx.Ray g1 }
  { ctx with
    BackupModelMatrix := g.SourceModelMatrix
    DragOrigin := inp.MousePos
    Gizmo := g2 }

/-- ContinueRotation from the source: recompute the drag angle, snap it
when requested and apply the incremental rotation to the model matrix.
The locked-axes flags are not consulted; the source marks this with a
todo comment. -/
def continueRotation (ray : ImGuizmoRay) (snap : Option Vec3)
    (w : ImGuizmoWidget) : ImGuizmoWidget :=
  let angle0 := calculateAngleOnPlane ray w
  let newAngle :=
    match snap with
    | some sn => CalculateSnap angle0 (radians sn.x)
    | none => angle0
  let rotationAxisLocalSpace :=
    (normalize4 (w.InversedModelMatrix.mulV
      ⟨w.TranslationPlane.x, w.TranslationPlane.y, w.TranslationPlane.z, 0⟩)).xyz
  let angle := newAngle - w.RotationAngleOrigin
  let deltaRotation := rotateM angle rotationAxisLocalSpace
  let w1 :=
    if newAngle = w.RotationAngleOrigin then { w with RotationAngle := newAngle }
    else if w.Mode == ImGuizmoMode_Local then
      { w with
        RotationAngle := newAngle
        ModelMatrix :=
          w.ModelMatrix.mul (deltaRotation.mul (scaleM w.ModelScaleOrigin))
        Dirty := true }
    else
      let result : Mat4 :=
        ⟨w.SourceModelMatrix.c0, w.SourceModelMatrix.c1, w.SourceModelMatrix.c2,
         ⟨0, 0, 0, 1⟩⟩
      let rotated := deltaRotation.mul result
      { w with
        RotationAngle := newAngle
        ModelMatrix :=
          ⟨rotated.c0, rotated.c1, rotated.c2, w.SourceModelMatrix.c3⟩
        Dirty := true }
  { w1 with RotationAngleOrigin := newAngle }

/-- BuildScalePlane from the source: the pick plane of a scale drag. -/
def BuildScalePlane (ctx : ImGuizmoContext) : Vec4 :=
  let g := ctx.Gizmo
  let hoverFlags := g.ActiveManipulationFlags
  if HasSingleAxis hoverFlags then
    let axisIdx := GetAxisIdx hoverFlags false
    BuildPlane g.ModelMatrix.c3.xyz
      (g.ModelMatrix.col (if axisIdx == 2 then 0 else axisIdx + 1)).xyz
  else BuildPlane g.ModelMatrix.c3.xyz g.ModelMatrix.c2.xyz

/-- BeginScale from the source: back up the reference matrix, reset the
scale vector and derive the scale plane state. -/
def BeginScale (inp : Inputs) (ctx : ImGuizmoContext) : ImGuizmoContext :=
  let g := ctx.Gizmo
  let g0 := { g with
    Scale := ⟨1, 1, 1⟩
    DragTranslationOrigin := g.ModelMatrix.c3.xyz }
  let plane := BuildScalePlane ctx
  let t := IntersectRayPlane ctx.Ray plane
  let planeOrigin := ctx.Ray.Origin + t • ctx.Ray.Direction
  { ctx with
    BackupModelMatrix := g.SourceModelMatrix
    DragOrigin := inp.MousePos
    Gizmo := { g0 with
      TranslationPlane := plane
      TranslationPlaneOrigin := planeOrigin
      ModelRelativeOrigin :=
        (1 / g.ScreenFactor) • (planeOrigin - g.ModelMatrix.c3.xyz)
      ScaleValueOrigin :=
        ⟨norm4 g.SourceModelMatrix.c0, norm4 g.SourceModelMatrix.c1,
         norm4 g.SourceModelMatrix.c2⟩ } }

/-- Final per-axis pass of ContinueScale: clamp every component to at
least 0.001 and force locked components to 1. -/
def lockClampScale (locked : ℕ) (s : Vec3) : Vec3 :=
  ⟨if locked &&& 1 ≠ 0 then 1 else max s.x (1 / 1000),
   if locked &&& 2 ≠ 0 then 1 else max s.y (1 / 1000),
   if locked &&& 4 ≠ 0 then 1 else max s.z (1 / 1000)⟩

/-- ContinueScale from the source: derive the new scale vector from the
drag (single axis by ray projection, uniform from the horizontal mouse
travel), snap it, clamp it, override locked components and multiply the
model matrix when the scale changed. -/
def continueScale (ray : ImGuizmoRay) (mouseX dragX : ℝ) (snap : Option Vec3)
    (w : ImGuizmoWidget) : ImGuizmoWidget :=
  let t := IntersectRayPlane ray w.TranslationPlane
  let targetPosition := ray.Origin + t • ray.Direction
  let newPosition := targetPosition - w.ScreenFactor • w.ModelRelativeOrigin
  let delta0 := newPosition - w.ModelMatrix.c3.xyz
  let scale1 :=
    if HasSingleAxis w.ActiveManipulationFlags then
      let axisIdx := GetAxisIdx w.ActiveManipulationFlags false
      let axisDir := (w.ModelMatrix.col axisIdx).xyz
      let lengthOnAxis := dot3 axisDir delta0
      let delta := lengthOnAxis • axisDir
      let baseVec := w.TranslationPlaneOrigin - w.ModelMatrix.c3.xyz
      let axisQuot := dot3 axisDir (baseVec + delta) / dot3 axisDir baseVec
      setComp3 w.Scale axisIdx (max axisQuot (1 / 1000))
    else
      let scaleDelta := (mouseX - dragX) * (1 / 100)
      let u := max (1 + scaleDelta) (1 / 1000)
      (⟨u, u, u⟩ : Vec3)
  let scale2 :=
    match snap with
    | some sn => CalculateSnapVec scale1 ⟨sn.x, sn.x, sn.x⟩
    | none => scale1
  let scale3 := lockClampScale w.LockedAxesFlags scale2
  if scale3 = w.LastScale then
    { w with Scale := scale3, LastScale := scale3 }
  else
    { w with
      Scale := scale3
      LastScale := scale3
      ModelMatrix := w.ModelMatrix.mul (scaleM (hadamard3 scale3 w.ScaleValueOrigin))
      Dirty := true }

/-- Containment test of ImRect (Min closed, Max open). -/
def rectContains (r : Rect) (p : Vec2) : Bool :=
  decide (r.Min.x ≤ p.x ∧ r.Min.y ≤ p.y ∧ p.x < r.Max.x ∧ p.y < r.Max.y)

/-- CanActivate from the source: the host window is hovered and the mouse
is inside the gizmo viewport. -/
def CanActivate (inp : Inputs) (ctx : ImGuizmoContext) : Bool :=
  inp.WindowHovered && rectContains ctx.Viewport inp.MousePos

/-- IsCoreHovered from the source: the mouse is on the central circle
(radius 6 with tolerance 3) and not every axis is locked. -/
def IsCoreHovered (inp : Inputs) (ctx : ImGuizmoContext) : Bool :=
  let g := ctx.Gizmo
  if g.LockedAxesFlags == 7 then false
  else decide (norm2 (inp.MousePos - g.Origin) ≤ 6 + 3)

/-- IsAxisHovered from the source: the mouse ray hit on the axis plane is
within tolerance 6 of the screen-space axis segment. -/
def IsAxisHovered (ctx : ImGuizmoContext) (axisIdx : ℕ) : Bool :=
  let g := ctx.Gizmo
  if g.LockedAxesFlags &&& AxisToFlag axisIdx false != 0 then false
  else
    let dirAxis := (g.ModelMatrix.mulV (unitDir4 axisIdx)).xyz
    let t := IntersectRayPlane ctx.Ray (BuildPlane g.ModelMatrix.c3.xyz dirAxis)
    let mousePosOnPlane :=
      WorldToScreen (ctx.Ray.Origin + t • ctx.Ray.Direction)
        ctx.Camera.ViewProjectionMatrix ctx.Viewport
    let axisStartOnScreen :=
      WorldToScreen (g.ModelMatrix.c3.xyz + (g.ScreenFactor * (1 / 10)) • dirAxis)
        ctx.Camera.ViewProjectionMatrix ctx.Viewport
    let axisEndOnScreen :=
      WorldToScreen (g.ModelMatrix.c3.xyz + g.ScreenFactor • dirAxis)
        ctx.Camera.ViewProjectionMatrix ctx.Viewport
    let closestPointOnAxis :=
      PointOnSegment mousePosOnPlane axisStartOnScreen axisEndOnScreen
    decide (norm2 (closestPointOnAxis - mousePosOnPlane) < 6)

/-- IsPlaneHovered from the source: the mouse ray hit lies inside the
unit quad of the plane handle. -/
def IsPlaneHovered (ctx : ImGuizmoContext) (planeIdx : ℕ) : Bool :=
  let g := ctx.Gizmo
  if g.LockedAxesFlags &&& PlaneToFlags planeIdx != 0 then false
  else
    let planeNormal := (g.ModelMatrix.mulV (unitDir4 planeIdx)).xyz
    let t := IntersectRayPlane ctx.Ray (BuildPlane g.ModelMatrix.c3.xyz planeNormal)
    let mousePosOnPlane := ctx.Ray.Origin + t • ctx.Ray.Direction
    let planeDir1 := (g.ModelMatrix.mulV (unitDir4 ((planeIdx + 1) % 3))).xyz
    let dx :=
      dot3 planeDir1 ((1 / g.ScreenFactor) • (mousePosOnPlane - g.ModelMatrix.c3.xyz))
    let planeDir2 := (g.ModelMatrix.mulV (unitDir4 ((planeIdx + 2) % 3))).xyz
    let dy :=
      dot3 planeDir2 ((1 / g.ScreenFactor) • (mousePosOnPlane - g.ModelMatrix.c3.xyz))
    decide (3 / 10 ≤ dx ∧ dx ≤ 1 / 2 ∧ 3 / 10 ≤ dy ∧ dy ≤ 1 / 2)

/-- IsRotationAxisHovered from the source: the mouse is within tolerance
8 of the ideal point of the rotation circle of the axis.  Hover is
refused only when the locked flags equal exactly this single axis. -/
def IsRotationAxisHovered (inp : Inputs) (ctx : ImGuizmoContext)
    (axisIdx : ℕ) : Bool :=
  let g := ctx.Gizmo
  if g.LockedAxesFlags == AxisToFlag axisIdx false then false
  else
    let pickupPlane := BuildPlane g.ModelMatrix.c3.xyz (g.ModelMatrix.col axisIdx).xyz
    let t := IntersectRayPlane ctx.Ray pickupPlane
    let localPos :=
      normalize3 (ctx.Ray.Origin + t • ctx.Ray.Direction - g.ModelMatrix.c3.xyz)
    if decide (kEpsilon < dot3 localPos ctx.Ray.Direction) then false
    else
      let idealPosOnCircle :=
        (g.InversedModelMatrix.mulV ⟨localPos.x, localPos.y, localPos.z, 0⟩).xyz
      let idealScreen :=
        WorldToScreen (g.ScreenFactor • idealPosOnCircle) g.ModelViewProjMatrix
          ctx.Viewport
      decide (norm2 (idealScreen - inp.MousePos) < 8)

/-- IsRotationRingHovered from the source: the mouse distance to the
gizmo origin lies within the ring band. -/
def IsRotationRingHovered (inp : Inputs) (ctx : ImGuizmoContext) : Bool :=
  let g := ctx.Gizmo
  if g.LockedAxesFlags == 7 then false
  else
    let ringThickness := ctx.RotationRingThickness + 1
    let distance := norm2 (inp.MousePos - g.Origin)
    decide (g.RingRadius - ringThickness ≤ distance ∧
            distance < g.RingRadius + ringThickness)

/-- FindTranslationHover from the source: all axes over the core circle,
else the first hovered plane, else the first hovered axis. -/
def FindTranslationHover (inp : Inputs) (ctx : ImGuizmoContext) : ℕ :=
  if !CanActivate inp ctx then 0
  else
    let h0 := if IsCoreHovered inp ctx then 7 else 0
    if h0 != 7 then
      let h1 := h0 |||
        (if IsPlaneHovered ctx 0 then PlaneToFlags 0
         else if IsPlaneHovered ctx 1 then PlaneToFlags 1
         else if IsPlaneHovered ctx 2 then PlaneToFlags 2
         else 0)
      if !HasPlane h1 then
        h1 |||
          (if IsAxisHovered ctx 0 then AxisToFlag 0 false
           else if IsAxisHovered ctx 1 then AxisToFlag 1 false
           else if IsAxisHovered ctx 2 then AxisToFlag 2 false
           else 0)
      else h1
    else h0

/-- FindRotationHover from the source: all axes over the ring, else the
first hovered rotation axis. -/
def FindRotationHover (inp : Inputs) (ctx : ImGuizmoContext) : ℕ :=
  if !CanActivate inp ctx then 0
  else
    let h0 := if IsRotationRingHovered inp ctx then 7 else 0
    if h0 != 7 then
      h0 |||
        (if IsRotationAxisHovered inp ctx 0 then AxisToFlag 0 false
         else if IsRotationAxisHovered inp ctx 1 then AxisToFlag 1 false
         else if IsRotationAxisHovered inp ctx 2 then AxisToFlag 2 false
         else 0)
    else h0

/-- FindScaleHover from the source: all axes over the core circle, else
the first hovered axis. -/
def FindScaleHover (inp : Inputs) (ctx : ImGuizmoContext) : ℕ :=
  if !CanActivate inp ctx then 0
  else
    let h0 := if IsCoreHovered inp ctx then 7 else 0
    if h0 != 7 then
      h0 |||
        (if IsAxisHovered ctx 0 then AxisToFlag 0 false
         else if IsAxisHovered ctx 1 then AxisToFlag 1 false
         else if IsAxisHovered ctx 2 then AxisToFlag 2 false
         else 0)
    else h0

/-- GizmoBehavior from the source: resolve the hover flags against the
active manipulation, press on a left click and hold while the button
stays down, releasing the widget otherwise.  In the single-widget model
the branch for a different active widget cannot fire and is dropped.
Returns the updated hover flags, pressed, held and the new context. -/
def GizmoBehavior (operation : ℕ) (hover0 : ℕ) (inp : Inputs)
    (ctx : ImGuizmoContext) : ℕ × Bool × Bool × ImGuizmoContext :=
  let g := ctx.Gizmo
  let hover :=
    if g.ActiveOperation ≠ operation ∧ g.ActiveOperation ≠ 0 then 0
    else if g.ActiveManipulationFlags ≠ 0 then g.ActiveManipulationFlags
    else hover0
  let pressed := hover ≠ 0 ∧ inp.MouseClicked0 = true
  let ctx1 :=
    if pressed then
      { ctx with
        ActiveGizmo := true
        Gizmo := { g with
          ActiveOperation := operation
          ActiveManipulationFlags := hover } }
    else ctx
  let g1 := ctx1.Gizmo
  if g1.ActiveManipulationFlags = hover ∧ g1.ActiveManipulationFlags ≠ 0 then
    if inp.MouseDown0 then (hover, decide pressed, true, ctx1)
    else
      (hover, decide pressed, false,
       { ctx1 with
         ActiveGizmo := false
         Gizmo := { g1 with ActiveManipulationFlags := 0 } })
  else (hover, decide pressed, false, ctx1)

/-- Translate entry point from the source, restricted to its state
effect: hover query, behavior, then begin or continue the drag.  The
render calls only touch the draw list and are omitted. -/
def Translate (inp : Inputs) (snap : Option Vec3)
    (ctx : ImGuizmoContext) : ImGuizmoContext :=
  let hover0 := FindTranslationHover inp ctx
  let r := GizmoBehavior ImGuizmoOperation_Translate hover0 inp ctx
  let ctx1 := if r.2.1 = true then BeginTranslation inp r.2.2.2 else r.2.2.2
  if r.2.2.1 = true then
    { ctx1 with Gizmo := continueTranslation ctx1.Ray snap ctx1.Gizmo }
  else ctx1

/-- Rotate entry point from the source, restricted to its state effect. -/
def Rotate (inp : Inputs) (snap : Option Vec3)
    (ctx : ImGuizmoContext) : ImGuizmoContext :=
  let hover0 := FindRotationHover inp ctx
  let r := GizmoBehavior ImGuizmoOperation_Rotate hover0 inp ctx
  let ctx1 := if r.2.1 = true then BeginRotation inp r.2.2.2 else r.2.2.2
  if r.2.2.1 = true then
    { ctx1 with Gizmo := continueRotation ctx1.Ray snap ctx1.Gizmo }
  else ctx1

/-- Scale entry point from the source, restricted to its state effect. -/
def Scale (inp : Inputs) (snap : Option Vec3)
    (ctx : ImGuizmoContext) : ImGuizmoContext :=
  let hover0 := FindScaleHover inp ctx
  let r := GizmoBehavior ImGuizmoOperation_Scale hover0 inp ctx
  let ctx1 := if r.2.1 = true then BeginScale inp r.2.2.2 else r.2.2.2
  if r.2.2.1 = true then
    { ctx1 with
      Gizmo :=
        continueScale ctx1.Ray inp.MousePos.x ctx1.DragOrigin.x snap ctx1.Gizmo }
  else ctx1

/-- Begin from the source: lock onto the caller matrix, refresh the
viewport, reset released drags, load the widget and cast the mouse ray.
Returns the context and the visibility of the gizmo. -/
def Begin (inp : Inputs) (mode lockedAxes : ℕ)
    (ctx : ImGuizmoContext) : ImGuizmoContext × Bool :=
  let ctx1 := { ctx with
    HasLockedModelMatrix := true
    Viewport := inp.WindowViewport }
  let g0 := ctx1.Gizmo
  let p1 :=
    if inp.MouseDown0 then (ctx1, g0)
    else
      ({ ctx1 with DragOrigin := ⟨0, 0⟩, ActiveGizmo := false },
       { g0 with ActiveManipulationFlags := 0 })
  let p2 :=
    if p1.2.ActiveManipulationFlags = 0 then
      ({ p1.1 with BoundsActivePlane := -1, BoundsActiveBoundIdx := -1 },
       { p1.2 with ActiveOperation := ImGuizmoOperation_None })
    else p1
  let g3 := { p2.2 with Mode := mode }
  let g4 := loadWidget p2.1 g3 p2.1.CallerMatrix
  let g5 := { g4 with LockedAxesFlags := lockedAxes }
  let ctx4 := { p2.1 with
    Gizmo := g5
    Ray := RayCast p2.1.Camera.ViewProjectionMatrix p2.1.Viewport inp.MousePos }
  let cameraSpacePosition := g5.ModelViewProjMatrix.c3.xyz
  (ctx4,
   if ctx4.Camera.IsOrtho then true
   else decide ((1 / 1000 : ℝ) ≤ cameraSpacePosition.z))

/-- RMB cancel condition of End: the HasReversing config flag is set, the
right mouse button was clicked this frame and a manipulation is active. -/
def reversingTriggered (inp : Inputs) (ctx : ImGuizmoContext) : Prop :=
  ctx.ConfigFlags &&& ImGuizmoConfigFlags_HasReversing ≠ 0
  ∧ inp.MouseClicked1 = true
  ∧ ctx.Gizmo.ActiveManipulationFlags ≠ 0

instance (inp : Inputs) (ctx : ImGuizmoContext) :
    Decidable (reversingTriggered inp ctx) := by
  unfold reversingTriggered; infer_instance

/-- End from the source: optionally revert to the backup matrix on an
RMB cancel, then write the model matrix back to the caller matrix when
the widget is dirty and release the caller matrix.  Returns the context
and whether the caller matrix was updated. -/
def End (inp : Inputs) (ctx : ImGuizmoContext) : ImGuizmoContext × Bool :=
  let g := ctx.Gizmo
  let g1 :=
    if reversingTriggered inp ctx then
      { g with
        ModelMatrix := ctx.BackupModelMatrix
        Dirty := true
        ActiveManipulationFlags := 0 }
    else g
  if g1.Dirty then
    ({ ctx with
       Gizmo := { g1 with Dirty := false }
       CallerMatrix := g1.ModelMatrix
       HasLockedModelMatrix := false }, true)
  else
    ({ ctx with Gizmo := g1, HasLockedModelMatrix := false }, false)

/-- Manipulate from the source: Begin with the default locked axes, the
switch over the operation when the gizmo is visible, then End. -/
def Manipulate (inp : Inputs) (mode operation : ℕ) (snap : Option Vec3)
    (ctx : ImGuizmoContext) : ImGuizmoContext × Bool :=
  let b := Begin inp mode 0 ctx
  let ctx2 :=
    if b.2 then
      match operation with
      | 1 => Translate inp snap b.1
      | 2 => Rotate inp snap b.1
      | 3 => Scale inp snap b.1
      | _ => b.1
    else b.1
  End inp ctx2

/-- Modelled from the claim wording of C8: call Begin with the mode and
matrix; when Begin returned true, call Translate, Rotate or Scale with
the snap value according to the operation; then call End and return
exactly what End returns. -/
def manipulateSpec (inp : Inputs) (mode operation : ℕ) (snap : Option Vec3)
    (ctx : ImGuizmoContext) : ImGuizmoContext × Bool :=
  let b := Begin inp mode 0 ctx
  let afterOp :=
    if b.2 = false then b.1
    else if operation = ImGuizmoOperation_Translate then Translate inp snap b.1
    else if operation = ImGuizmoOperation_Rotate then Rotate inp snap b.1
    else if operation = ImGuizmoOperation_Scale then Scale inp snap b.1
    else b.1
  End inp afterOp

@[simp]
theorem Vec3.add_x (a b : Vec3) : (a + b).x = a.x + b.x := rfl

@[simp]
theorem Vec3.add_y (a b : Vec3) : (a + b).y = a.y + b.y := rfl

@[simp]
theorem Vec3.add_z (a b : Vec3) : (a + b).z = a.z + b.z := rfl

@[simp]
theorem Vec3.sub_x (a b : Vec3) : (a - b).x = a.x - b.x := rfl

@[simp]
theorem Vec3.sub_y (a b : Vec3) : (a - b).y = a.y - b.y := rfl

@[simp]
theorem Vec3.sub_z (a b : Vec3) : (a - b).z = a.z - b.z := rfl

@[simp]
theorem Vec3.smul_x (r : ℝ) (v : Vec3) : (r • v).x = r * v.x := rfl

@[simp]
theorem Vec3.smul_y (r : ℝ) (v : Vec3) : (r • v).y = r * v.y := rfl

@[simp]
theorem Vec3.smul_z (r : ℝ) (v : Vec3) : (r • v).z = r * v.z := rfl

@[simp]
theorem Vec3.neg_x (v : Vec3) : (-v).x = -v.x := rfl

@[simp]
theorem Vec3.neg_y (v : Vec3) : (-v).y = -v.y := rfl

@[simp]
theorem Vec3.neg_z (v : Vec3) : (-v).z = -v.z := rfl

@[simp]
theorem Vec4.smul4_x (r : ℝ) (v : Vec4) : (r • v).x = r * v.x := rfl

@[simp]
theorem Vec4.smul4_y (r : ℝ) (v : Vec4) : (r • v).y = r * v.y := rfl

@[simp]
theorem Vec4.smul4_z (r : ℝ) (v : Vec4) : (r • v).z = r * v.z := rfl

@[simp]
theorem Vec4.smul4_w (r : ℝ) (v : Vec4) : (r • v).w = r * v.w := rfl

@[simp]
theorem Vec4.xyz_x (v : Vec4) : v.xyz.x = v.x := rfl

@[simp]
theorem Vec4.xyz_y (v : Vec4) : v.xyz.y = v.y := rfl

@[simp]
theorem Vec4.xyz_z (v : Vec4) : v.xyz.z = v.z := rfl

/-- A matrix applied to the unit w vector yields its translation column. -/
theorem Mat4.mulV_wUnit (m : Mat4) : m.mulV ⟨0, 0, 0, 1⟩ = m.c3 := by
  cases m
  simp only [Mat4.mulV]
  ext <;> simp

/-- The translation column of a product is the left matrix applied to the
translation column of the right matrix. -/
theorem Mat4.mul_col3 (a b : Mat4) : (a.mul b).c3 = a.mulV b.c3 := rfl

@[simp]
theorem scaleM_c3 (v : Vec3) : (scaleM v).c3 = ⟨0, 0, 0, 1⟩ := rfl

@[simp]
theorem rotateM_c3 (angle : ℝ) (v : Vec3) : (rotateM angle v).c3 = ⟨0, 0, 0, 1⟩ := rfl

/-- Multiplying by a scale matrix on the right preserves the translation
column. -/
theorem Mat4.mul_scale_c3 (m : Mat4) (v : Vec3) : (m.mul (scaleM v)).c3 = m.c3 := by
  rw [Mat4.mul_col3, scaleM_c3, Mat4.mulV_wUnit]

/-- Claim C4: in Local mode the working model matrix loaded by Begin is
the caller matrix with its three axis columns normalized (and the
translation column kept), while in World mode it is the pure translation
by the caller translation column with an identity rotation and scale
part. -/
theorem load_mode_frames (ctx : ImGuizmoContext) (w : ImGuizmoWidget)
    (model : Mat4) :
    (w.Mode = ImGuizmoMode_Local →
      (loadWidget ctx w model).ModelMatrix =
        ⟨normalize4 model.c0, normalize4 model.c1, normalize4 model.c2,
         model.c3⟩)
    ∧ (w.Mode = ImGuizmoMode_World →
      (loadWidget ctx w model).ModelMatrix = translateM model.c3.xyz) := by
  constructor
  · intro h
    simp [loadWidget, h, ImGuizmoMode_Local]
  · intro h
    simp [loadWidget, h, ImGuizmoMode_World, ImGuizmoMode_Local]

/-- Witness for C4 at a concrete widget in Local mode and the identity
caller matrix. -/
theorem load_mode_frames_witness :
    ({} : ImGuizmoWidget).Mode = ImGuizmoMode_Local
    ∧ (loadWidget {} {} idMat).ModelMatrix =
        ⟨normalize4 idMat.c0, normalize4 idMat.c1, normalize4 idMat.c2,
         idMat.c3⟩ :=
  ⟨rfl, (load_mode_frames {} {} idMat).1 rfl⟩

/-- Claim C5: IntersectRayPlane returns -1 when the plane normal is
within kEpsilon of being orthogonal to the ray direction, and otherwise
returns a parameter whose ray point satisfies the plane equation. -/
theorem intersectRayPlane_correct (ray : ImGuizmoRay) (plane : Vec4) :
    (|dot3 plane.xyz ray.Direction| < kEpsilon →
      IntersectRayPlane ray plane = -1)
    ∧ (kEpsilon ≤ |dot3 plane.xyz ray.Direction| →
      dot3 plane.xyz
        (ray.Origin + (IntersectRayPlane ray plane) • ray.Direction) =
        plane.w) := by
  constructor
  · intro h
    simp [IntersectRayPlane, h]
  · intro h
    have hlt : ¬ |dot3 plane.xyz ray.Direction| < kEpsilon := not_lt.2 h
    have hne : dot3 plane.xyz ray.Direction ≠ 0 := by
      intro h0
      rw [h0] at h
      norm_num [kEpsilon] at h
    simp only [IntersectRayPlane]
    rw [if_neg hlt]
    have hd : plane.x * ray.Direction.x + plane.y * ray.Direction.y +
        plane.z * ray.Direction.z ≠ 0 := by
      simpa [dot3, Vec4.xyz] using hne
    simp only [dot3, Vec3.add_x, Vec3.add_y, Vec3.add_z, Vec3.smul_x,
      Vec3.smul_y, Vec3.smul_z, Vec4.xyz_x, Vec4.xyz_y, Vec4.xyz_z]
    field_simp
    ring

/-- Witness for C5 at a concrete ray and plane: the plane z = 2 hit by a
downward ray from (0, 0, 5). -/
theorem intersectRayPlane_correct_witness :
    kEpsilon ≤
      |dot3 (Vec4.mk 0 0 1 2).xyz
        (ImGuizmoRay.mk ⟨0, 0, 5⟩ ⟨0, 0, 0⟩ ⟨0, 0, -1⟩).Direction|
    ∧ dot3 (Vec4.mk 0 0 1 2).xyz
        ((ImGuizmoRay.mk ⟨0, 0, 5⟩ ⟨0, 0, 0⟩ ⟨0, 0, -1⟩).Origin +
          (IntersectRayPlane (ImGuizmoRay.mk ⟨0, 0, 5⟩ ⟨0, 0, 0⟩ ⟨0, 0, -1⟩)
              (Vec4.mk 0 0 1 2)) •
            (ImGuizmoRay.mk ⟨0, 0, 5⟩ ⟨0, 0, 0⟩ ⟨0, 0, -1⟩).Direction) =
        (Vec4.mk 0 0 1 2).w := by
  have h : kEpsilon ≤
      |dot3 (Vec4.mk 0 0 1 2).xyz
        (ImGuizmoRay.mk ⟨0, 0, 5⟩ ⟨0, 0, 0⟩ ⟨0, 0, -1⟩).Direction| := by
    norm_num [dot3, Vec4.xyz, kEpsilon]
  exact ⟨h, (intersectRayPlane_correct _ _).2 h⟩

/-- Claim C6: a scale drag continuation never changes the translation
column of the model matrix, and a rotation drag continuation (in both
modes) keeps the translation column, which equals the source translation
column when the drag runs, unchanged. -/
theorem rotation_scale_preserve_translation (ray : ImGuizmoRay)
    (mouseX dragX : ℝ) (snap : Option Vec3) (w : ImGuizmoWidget) :
    (continueScale ray mouseX dragX snap w).ModelMatrix.c3 = w.ModelMatrix.c3
    ∧ (w.ModelMatrix.c3 = w.SourceModelMatrix.c3 →
      (continueRotation ray snap w).ModelMatrix.c3 = w.ModelMatrix.c3) := by
  constructor
  · simp only [continueScale]
    repeat' split
    all_goals first
      | rfl
      | exact Mat4.mul_scale_c3 _ _
  · intro hsrc
    simp only [continueRotation]
    repeat' split
    all_goals first
      | rfl
      | exact hsrc.symm
      | simp only [Mat4.mul_col3, scaleM_c3, rotateM_c3, Mat4.mulV_wUnit]

/-- Witness for C6 at the default widget state, whose model matrix equals
its source matrix. -/
theorem rotation_scale_preserve_translation_witness :
    ({} : ImGuizmoWidget).ModelMatrix.c3 = ({} : ImGuizmoWidget).SourceModelMatrix.c3
    ∧ (continueRotation {} none {}).ModelMatrix.c3 =
        ({} : ImGuizmoWidget).ModelMatrix.c3 :=
  ⟨rfl, (rotation_scale_preserve_translation {} 0 0 none {}).2 rfl⟩

/-- Every component produced by the final clamp pass of ContinueScale is
at least 0.001. -/
theorem lockClampScale_ge (locked : ℕ) (s : Vec3) :
    (1 / 1000 : ℝ) ≤ (lockClampScale locked s).x
    ∧ (1 / 1000 : ℝ) ≤ (lockClampScale locked s).y
    ∧ (1 / 1000 : ℝ) ≤ (lockClampScale locked s).z := by
  refine ⟨?_, ?_, ?_⟩ <;>
    (simp only [lockClampScale]; split) <;>
    norm_num

/-- Claim C10: after every scale drag continuation every component of the
scale vector of the widget is at least 0.001, hence strictly positive. -/
theorem continueScale_bounded_below (ray : ImGuizmoRay) (mouseX dragX : ℝ)
    (snap : Option Vec3) (w : ImGuizmoWidget) :
    (1 / 1000 : ℝ) ≤ (continueScale ray mouseX dragX snap w).Scale.x
    ∧ (1 / 1000 : ℝ) ≤ (continueScale ray mouseX dragX snap w).Scale.y
    ∧ (1 / 1000 : ℝ) ≤ (continueScale ray mouseX dragX snap w).Scale.z := by
  refine ⟨?_, ?_, ?_⟩ <;>
    (simp only [continueScale]; repeat' split) <;>
    first
      | exact (lockClampScale_ge _ _).1
      | exact (lockClampScale_ge _ _).2.1
      | exact (lockClampScale_ge _ _).2.2

/-- Claim C2 (amended): End returns true exactly when the widget is
dirty or the RMB cancel fires; when it returns true the caller matrix
receives the backup matrix under a cancel and the manipulated model
matrix otherwise, and when it returns false the caller matrix is left
unchanged. -/
theorem end_updates_iff_dirty_or_reversing (inp : Inputs)
    (ctx : ImGuizmoContext) :
    ((End inp ctx).2 = true ↔
      (ctx.Gizmo.Dirty = true ∨ reversingTriggered inp ctx))
    ∧ (End inp ctx).1.CallerMatrix =
        (if (End inp ctx).2 then
          (if reversingTriggered inp ctx then ctx.BackupModelMatrix
           else ctx.Gizmo.ModelMatrix)
         else ctx.CallerMatrix) := by
  by_cases hr : reversingTriggered inp ctx
  · constructor <;> simp [End, hr]
  · by_cases hd : ctx.Gizmo.Dirty = true
    · constructor <;> simp [End, hr, hd]
    · constructor <;> simp [End, hr, hd]

/-- Concrete context for the C2 counterexample: the widget is not dirty,
one manipulation is active and reversing is enabled. -/
def ctxC2 : ImGuizmoContext :=
  { ConfigFlags := ImGuizmoConfigFlags_HasReversing
    Gizmo := { ActiveManipulationFlags := 1 } }

/-- Concrete inputs for the C2 counterexample: right mouse clicked. -/
def inpC2 : Inputs := { MouseClicked1 := true }

/-- Counterexample to claim C2 as stated: no manipulation marked the
widget dirty between Begin and End, yet End returns true through the
RMB cancel path instead of returning false. -/
theorem end_returns_true_without_dirty :
    ctxC2.Gizmo.Dirty = false ∧ (End inpC2 ctxC2).2 = true := by
  constructor
  · rfl
  · simp +decide [End, reversingTriggered, ctxC2, inpC2,
      ImGuizmoConfigFlags_HasReversing]

/-- Concrete context for the C9 witness: the widget is mid-manipulation
with reversing enabled and a backup matrix in place. -/
def ctxC9 : ImGuizmoContext :=
  { ConfigFlags := ImGuizmoConfigFlags_HasReversing
    Gizmo := { ActiveManipulationFlags := 2, Dirty := true }
    BackupModelMatrix := translateM ⟨3, 0, 0⟩ }

/-- Concrete inputs for the C9 witness: right mouse clicked. -/
def inpC9 : Inputs := { MouseClicked1 := true }

/-- Claim C9: with HasReversing set, a right click during an active
manipulation makes End write the matrix saved when the drag began back
into the caller matrix, deactivate the manipulation and return true;
every drag begin saves the reference model matrix as that backup. -/
theorem reversing_cancel_restores_backup (inp : Inputs)
    (ctx : ImGuizmoContext) (inpB : Inputs) (ctxB : ImGuizmoContext)
    (h1 : ctx.ConfigFlags &&& ImGuizmoConfigFlags_HasReversing ≠ 0)
    (h2 : inp.MouseClicked1 = true)
    (h3 : ctx.Gizmo.ActiveManipulationFlags ≠ 0) :
    (End inp ctx).2 = true
    ∧ (End inp ctx).1.CallerMatrix = ctx.BackupModelMatrix
    ∧ (End inp ctx).1.Gizmo.ActiveManipulationFlags = 0
    ∧ (BeginTranslation inpB ctxB).BackupModelMatrix =
        ctxB.Gizmo.SourceModelMatrix
    ∧ (BeginRotation inpB ctxB).BackupModelMatrix =
        ctxB.Gizmo.SourceModelMatrix
    ∧ (BeginScale inpB ctxB).BackupModelMatrix =
        ctxB.Gizmo.SourceModelMatrix := by
  have hr : reversingTriggered inp ctx := ⟨h1, h2, h3⟩
  refine ⟨?_, ?_, ?_, rfl, rfl, rfl⟩ <;> simp [End, hr]

/-- Witness for C9 at a concrete cancelled drag. -/
theorem reversing_cancel_restores_backup_witness :
    (ctxC9.ConfigFlags &&& ImGuizmoConfigFlags_HasReversing ≠ 0
      ∧ inpC9.MouseClicked1 = true
      ∧ ctxC9.Gizmo.ActiveManipulationFlags ≠ 0)
    ∧ ((End inpC9 ctxC9).2 = true
      ∧ (End inpC9 ctxC9).1.CallerMatrix = ctxC9.BackupModelMatrix
      ∧ (End inpC9 ctxC9).1.Gizmo.ActiveManipulationFlags = 0
      ∧ (BeginTranslation inpC9 ctxC9).BackupModelMatrix =
          ctxC9.Gizmo.SourceModelMatrix
      ∧ (BeginRotation inpC9 ctxC9).BackupModelMatrix =
          ctxC9.Gizmo.SourceModelMatrix
      ∧ (BeginScale inpC9 ctxC9).BackupModelMatrix =
          ctxC9.Gizmo.SourceModelMatrix) :=
  ⟨⟨by decide, rfl, by decide⟩,
   reversing_cancel_restores_backup inpC9 ctxC9 inpC9 ctxC9 (by decide) rfl
     (by decide)⟩

/-- Decomposition of fmod: the value minus its fmod is the truncated
multiple of the modulus. -/
theorem fmod_decomp (value snap : ℚ) :
    value - fmodK value snap = (truncI (value / snap) : ℚ) * snap := by
  unfold fmodK
  ring

/-- Range of fmod for a positive modulus: the result shares the sign of
the value and its magnitude stays below the modulus. -/
theorem fmod_spec (value snap : ℚ) (hs : 0 < snap) :
    (0 ≤ value → 0 ≤ fmodK value snap ∧ fmodK value snap < snap)
    ∧ (value < 0 → -snap < fmodK value snap ∧ fmodK value snap ≤ 0) := by
  have hq : value / snap * snap = value := div_mul_cancel₀ value hs.ne'
  constructor
  · intro hv
    have hq0 : 0 ≤ value / snap := div_nonneg hv hs.le
    have ht : truncI (value / snap) = ⌊value / snap⌋ := by
      unfold truncI
      rw [if_pos hq0]
    unfold fmodK
    rw [ht]
    have h1 : (⌊value / snap⌋ : ℚ) ≤ value / snap := Int.floor_le _
    have h2 : value / snap < ⌊value / snap⌋ + 1 := Int.lt_floor_add_one _
    constructor
    · nlinarith [mul_le_mul_of_nonneg_left h1 hs.le]
    · nlinarith [mul_le_mul_of_nonneg_left h1 hs.le]
  · intro hv
    have hq0 : ¬ 0 ≤ value / snap := by
      rw [not_le]
      exact div_neg_of_neg_of_pos hv hs
    have ht : truncI (value / snap) = ⌈value / snap⌉ := by
      unfold truncI
      rw [if_neg hq0]
    unfold fmodK
    rw [ht]
    have h1 : value / snap ≤ (⌈value / snap⌉ : ℚ) := Int.le_ceil _
    have h2 : (⌈value / snap⌉ : ℚ) < value / snap + 1 := Int.ceil_lt_add_one _
    constructor
    · nlinarith [mul_le_mul_of_nonneg_left h1 hs.le]
    · nlinarith [mul_le_mul_of_nonneg_left h1 hs.le]

/-- A multiple of the snap step strictly within half a step of the value
is strictly closer to the value than every other multiple. -/
theorem nearest_unique (value snap : ℚ) (hs : 0 < snap) (k : ℤ)
    (hk : |value - (k : ℚ) * snap| < snap / 2) :
    ∀ j : ℤ, j ≠ k →
      |value - (k : ℚ) * snap| < |value - (j : ℚ) * snap| := by
  intro j hj
  have h1 : (1 : ℚ) ≤ |(k : ℚ) - (j : ℚ)| := by
    rw [← Int.cast_sub]
    rw [← Int.cast_abs]
    exact_mod_cast Int.one_le_abs (sub_ne_zero.2 (Ne.symm hj))
  have h2 : snap ≤ |(k : ℚ) * snap - (j : ℚ) * snap| := by
    have hmul : |(k : ℚ) * snap - (j : ℚ) * snap| = |(k : ℚ) - (j : ℚ)| * snap := by
      rw [← sub_mul, abs_mul, abs_of_pos hs]
    rw [hmul]
    nlinarith
  have htri : |(k : ℚ) * snap - (j : ℚ) * snap| ≤
      |value - (j : ℚ) * snap| + |value - (k : ℚ) * snap| := by
    have hsplit : (k : ℚ) * snap - (j : ℚ) * snap =
        (value - (j : ℚ) * snap) + ((k : ℚ) * snap - value) := by
      ring
    rw [hsplit]
    calc |(value - (j : ℚ) * snap) + ((k : ℚ) * snap - value)|
        ≤ |value - (j : ℚ) * snap| + |(k : ℚ) * snap - value| := abs_add _ _
      _ = |value - (j : ℚ) * snap| + |value - (k : ℚ) * snap| := by
          rw [abs_sub_comm ((k : ℚ) * snap) value]
  linarith

/-- Claim C3 (amended): for snap steps above kEpsilon, CalculateSnap
yields the integer multiple of the snap step strictly nearest to the
value whenever the value is not exactly halfway between two consecutive
multiples; a value exactly halfway is left unchanged, as is every value
when the snap step is at most kEpsilon. -/
theorem calculateSnap_nearest (value snap : ℚ) :
    (snap ≤ kEpsilon → CalculateSnap value snap = value)
    ∧ (kEpsilon < snap → |fmodK value snap| / snap = 1 / 2 →
        CalculateSnap value snap = value)
    ∧ (kEpsilon < snap → |fmodK value snap| / snap ≠ 1 / 2 →
        ∃ k : ℤ, CalculateSnap value snap = (k : ℚ) * snap
          ∧ ∀ j : ℤ, j ≠ k →
              |value - (k : ℚ) * snap| < |value - (j : ℚ) * snap|) := by
  refine ⟨?_, ?_, ?_⟩
  · intro h
    simp only [CalculateSnap]
    rw [if_pos h]
  · intro h hf
    have hns : ¬ snap ≤ kEpsilon := not_le.2 h
    simp only [CalculateSnap]
    rw [if_neg hns, if_neg (by rw [hf]; exact lt_irrefl _),
      if_neg (by rw [hf]; norm_num)]
  · intro h hf
    have hs : (0 : ℚ) < snap := lt_trans (by norm_num [kEpsilon]) h
    have hns : ¬ snap ≤ kEpsilon := not_le.2 h
    rcases lt_or_gt_of_ne hf with hlt | hgt
    · have hcalc : CalculateSnap value snap = value - fmodK value snap := by
        simp only [CalculateSnap]
        rw [if_neg hns, if_pos hlt]
      have habs : |fmodK value snap| < snap / 2 := by
        have := (div_lt_iff₀ hs).1 hlt
        linarith
      refine ⟨truncI (value / snap), ?_, ?_⟩
      · rw [hcalc, fmod_decomp]
      · apply nearest_unique value snap hs
        have hrw : value - (truncI (value / snap) : ℚ) * snap =
            fmodK value snap := by
          unfold fmodK
          ring
        rw [hrw]
        exact habs
    · have hgt2 : |fmodK value snap| / snap > 1 - 1 / 2 := by
        have h12 : (1 : ℚ) - 1 / 2 = 1 / 2 := by norm_num
        rw [h12]
        exact hgt
      have hcalc : CalculateSnap value snap =
          value - fmodK value snap + snap * (if value < 0 then -1 else 1) := by
        simp only [CalculateSnap]
        rw [if_neg hns, if_neg (not_lt.2 hgt.le), if_pos hgt2]
      have habs : snap / 2 < |fmodK value snap| := by
        have := (lt_div_iff₀ hs).1 hgt
        linarith
      rcases le_or_lt 0 value with hv | hv
      · obtain ⟨hm0, hms⟩ := (fmod_spec value snap hs).1 hv
        have hvneg : ¬ value < 0 := not_lt.2 hv
        have hmabs : |fmodK value snap| = fmodK value snap := abs_of_nonneg hm0
        refine ⟨truncI (value / snap) + 1, ?_, ?_⟩
        · rw [hcalc, if_neg hvneg]
          have hdec := fmod_decomp value snap
          push_cast
          linarith [hdec]
        · apply nearest_unique value snap hs
          have hrw : value - ((truncI (value / snap) : ℤ) + 1 : ℤ) * snap =
              fmodK value snap - snap := by
            unfold fmodK
            push_cast
            ring
          rw [hrw]
          rw [abs_of_neg (by linarith)]
          linarith [hmabs ▸ habs]
      · obtain ⟨hms, hm0⟩ := (fmod_spec value snap hs).2 hv
        have hmabs : |fmodK value snap| = -fmodK value snap := abs_of_nonpos hm0
        refine ⟨truncI (value / snap) - 1, ?_, ?_⟩
        · rw [hcalc, if_pos hv]
          have hdec := fmod_decomp value snap
          push_cast
          linarith [hdec]
        · apply nearest_unique value snap hs
          have hrw : value - ((truncI (value / snap) : ℤ) - 1 : ℤ) * snap =
              fmodK value snap + snap := by
            unfold fmodK
            push_cast
            ring
          rw [hrw]
          rw [abs_of_pos (by linarith)]
          linarith [hmabs ▸ habs]

/-- Witness for C3 at the value 13/10 with snap step 1: the result is
the nearest multiple. -/
theorem calculateSnap_nearest_witness :
    (kEpsilon < (1 : ℚ) ∧ |fmodK (13 / 10 : ℚ) 1| / 1 ≠ 1 / 2)
    ∧ ∃ k : ℤ, CalculateSnap (13 / 10 : ℚ) 1 = (k : ℚ) * 1
        ∧ ∀ j : ℤ, j ≠ k →
            |(13 / 10 : ℚ) - (k : ℚ) * 1| < |(13 / 10 : ℚ) - (j : ℚ) * 1| :=
  ⟨⟨by norm_num [kEpsilon], by norm_num [fmodK, truncI, abs_of_nonneg]⟩,
   (calculateSnap_nearest (13 / 10) 1).2.2 (by norm_num [kEpsilon])
     (by norm_num [fmodK, truncI, abs_of_nonneg])⟩

/-- Counterexample to claim C3 as stated: at the value 3/2 with snap
step 1 (well above kEpsilon) the code leaves the value at 3/2, which is
neither of the two nearest integer multiples 1 and 2 of the snap step,
so the value is not set to the nearest multiple. -/
theorem calculateSnap_half_left_unchanged :
    CalculateSnap (3 / 2 : ℚ) 1 = 3 / 2
    ∧ kEpsilon < (1 : ℚ)
    ∧ CalculateSnap (3 / 2 : ℚ) 1 ≠ 1
    ∧ CalculateSnap (3 / 2 : ℚ) 1 ≠ 2 := by
  have h : CalculateSnap (3 / 2 : ℚ) 1 = 3 / 2 := by
    norm_num [CalculateSnap, kEpsilon, fmodK, truncI, abs_of_nonneg]
  refine ⟨h, by norm_num [kEpsilon], by rw [h]; norm_num, by rw [h]; norm_num⟩

/-- Concrete widget state for C1: a rotation drag around the X axis
(ActiveManipulationFlags X, reachable because IsRotationAxisHovered only
refuses hover when the locked flags equal exactly that single axis)
while the X and Y axes are locked; the model is the identity and the
pick plane is the plane through the origin with normal X. -/
def gizmoC1 : ImGuizmoWidget :=
  { ActiveManipulationFlags := ImGuizmoAxisFlags_X
    LockedAxesFlags := 3
    TranslationPlane := ⟨1, 0, 0, 0⟩
    RotationVectorSource := ⟨0, 1, 0⟩ }

/-- Concrete mouse ray for C1: shooting along negative X, hitting the
pick plane at the point (0, 0, 1), a quarter turn from the rotation
source vector. -/
def rayC1 : ImGuizmoRay := ⟨⟨5, 0, 1⟩, ⟨0, 0, 1⟩, ⟨-1, 0, 0⟩⟩

/-- Claim C1 evaluated at the failing input: with the X axis locked, the
rotation continuation still rotates the model by a quarter turn about X,
moving the Y column of the model matrix from (0, 1, 0, 0) to
(0, 0, 1, 0) and marking the widget dirty, because ContinueRotation
never consults the locked-axes flags. -/
theorem rotation_ignores_locked_axes :
    gizmoC1.LockedAxesFlags &&& ImGuizmoAxisFlags_X ≠ 0
    ∧ (continueRotation rayC1 none gizmoC1).Dirty = true
    ∧ (continueRotation rayC1 none gizmoC1).ModelMatrix.c1 = ⟨0, 0, 1, 0⟩
    ∧ gizmoC1.ModelMatrix.c1 = ⟨0, 1, 0, 0⟩ := by
  have h_t : IntersectRayPlane rayC1 gizmoC1.TranslationPlane = 5 := by
    norm_num [IntersectRayPlane, gizmoC1, rayC1, dot3, Vec4.xyz, kEpsilon,
      abs_neg, abs_one]
  have h_angle : calculateAngleOnPlane rayC1 gizmoC1 = Real.pi / 2 := by
    have hlp : rayC1.Origin +
        (IntersectRayPlane rayC1 gizmoC1.TranslationPlane) • rayC1.Direction -
        gizmoC1.ModelMatrix.c3.xyz = ⟨0, 0, 1⟩ := by
      rw [h_t]
      ext <;> norm_num [rayC1, gizmoC1, idMat, Vec4.xyz]
    have hn : normalize3 (⟨0, 0, 1⟩ : Vec3) = ⟨0, 0, 1⟩ := by
      ext <;> norm_num [normalize3, norm3, dot3, Real.sqrt_one]
    have hcross : cross3 gizmoC1.RotationVectorSource
        gizmoC1.TranslationPlane.xyz = ⟨0, 0, -1⟩ := by
      ext <;> norm_num [cross3, gizmoC1, Vec4.xyz]
    have hn2 : normalize3 (⟨0, 0, -1⟩ : Vec3) = ⟨0, 0, -1⟩ := by
      ext <;> norm_num [normalize3, norm3, dot3, Real.sqrt_one]
    simp only [calculateAngleOnPlane]
    rw [hlp, hn, hcross, hn2]
    norm_num [dot3, gizmoC1, Real.arccos_zero]
  have h_axis : (normalize4 (gizmoC1.InversedModelMatrix.mulV
      ⟨gizmoC1.TranslationPlane.x, gizmoC1.TranslationPlane.y,
       gizmoC1.TranslationPlane.z, 0⟩)).xyz = ⟨1, 0, 0⟩ := by
    ext <;>
      norm_num [normalize4, norm4, Mat4.mulV, gizmoC1, idMat, Vec4.xyz,
        Real.sqrt_one]
  have hne : Real.pi / 2 ≠ gizmoC1.RotationAngleOrigin := by
    have h0 : gizmoC1.RotationAngleOrigin = 0 := rfl
    rw [h0]
    positivity
  have hmode : (gizmoC1.Mode == ImGuizmoMode_Local) = true := rfl
  refine ⟨by decide, ?_, ?_, rfl⟩
  · simp only [continueRotation]
    rw [h_angle, if_neg hne, if_pos hmode]
  · simp only [continueRotation]
    rw [h_angle, if_neg hne, if_pos hmode, h_axis]
    have h0 : gizmoC1.RotationAngleOrigin = 0 := rfl
    rw [h0]
    ext <;>
      norm_num [Mat4.mul, Mat4.mulV, rotateM, scaleM, normalize3, norm3, dot3,
        gizmoC1, idMat, Real.sqrt_one, Real.cos_pi_div_two,
        Real.sin_pi_div_two]

/-- Claim C8: the convenience entry point Manipulate has exactly the
effect of Begin, then (when Begin returned true) the operation selected
by its argument, then End, and it returns what End returns. -/
theorem manipulate_equiv_begin_op_end (inp : Inputs) (mode operation : ℕ)
    (snap : Option Vec3) (ctx : ImGuizmoContext) :
    Manipulate inp mode operation snap ctx =
      manipulateSpec inp mode operation snap ctx := by
  unfold Manipulate manipulateSpec
  cases hb : (Begin inp mode 0 ctx).2
  · simp [hb]
  · simp only [hb, Bool.true_eq_false, if_false, if_true]
    rcases operation with _ | _ | _ | _ | n <;>
      simp [ImGuizmoOperation_Translate, ImGuizmoOperation_Rotate,
        ImGuizmoOperation_Scale]

end

end ImGuizmo
